import Mathlib

/-!
Verification development for the social-media script generator app
(`src/app.py`). The app is a single-page Streamlit form: six input
widgets, one fixed prompt template, one synchronous call to an external
hosted language model, and display of the returned text.

The shallow embedding below models:
* the Python `str.format`-style substitution performed by the LangChain
  prompt template (single pass over the template; `{name}` is replaced by
  the value bound to `name`; values are inserted verbatim and never
  re-scanned), restricted to the subset the source template uses
  (no `{{` escapes, no format specs);
* Streamlit widgets as pure functions of the user's current control
  state (`selectbox` always returns one of its options, `multiselect`
  returns the selected options in selection order, `slider` returns one
  of its finitely many positions, `text_input` returns a free string);
* the external service as an oracle `ExternalCall → Except String String`
  supplied as a parameter (an `Except.error` models a raised exception,
  which `StrOutputParser` would propagate);
* the process environment (`os.environ`) as a total map
  `String → Option String` threaded through explicitly.
-/

/-- Python-style single-pass `str.format` worker over the character list of
the template.  The first argument is `none` while copying literal text and
`some acc` while reading a `{variable}` name (accumulated reversed in
`acc`).  Values returned by `env` are spliced in verbatim. -/
def format_aux (env : String → String) : Option (List Char) → List Char → List Char
  | none, [] => []
  | some acc, [] => (env (String.mk acc.reverse)).data
  | none, c :: rest =>
    if c = '{' then format_aux env (some []) rest
    else c :: format_aux env none rest
  | some acc, c :: rest =>
    if c = '}' then (env (String.mk acc.reverse)).data ++ format_aux env none rest
    else format_aux env (some (c :: acc)) rest

/-- Python-style `template.format(**env)` as used by the LangChain prompt
template on the fixed template of `define_prompt_template`. -/
def str_format (template : String) (env : String → String) : String :=
  String.mk (format_aux env none template.data)

/-- Python `sep.join(xs)`: the elements of `xs` interleaved with `sep`,
with no leading or trailing separator (source line 52 uses
`', '.join(audience)`). -/
def py_join (sep : String) : List String → String
  | [] => ""
  | [a] => a
  | a :: b :: rest => a ++ sep ++ py_join sep (b :: rest)

/-- Python `s.lower()` as applied to the selector options (source lines 77
and 92): per-character lowercasing (the option strings are pure ASCII, so
the per-character map coincides with Python semantics). -/
def py_lower (s : String) : String :=
  String.mk (s.data.map Char.toLower)

/-- The process environment `os.environ`, restricted to what the program
touches: a total map from variable names to optional values. -/
def EnvMap : Type := String → Option String

/-- `os.environ[k] = v`: overwrite the single variable `k`, leaving every
other variable unchanged. -/
def env_set (env : EnvMap) (k v : String) : EnvMap :=
  fun k' => if k' = k then some v else env k'

/-- The configuration of the `ChatOpenAI` client constructed in
`initialize_openai_model` (source line 14): a sampling temperature and a
model identifier.  The temperature 0.5 is exactly representable, so a
rational models the Python float faithfully here. -/
structure ChatOpenAI where
  temperature : ℚ
  model_name : String
deriving DecidableEq, Repr

/-- `initialize_openai_model(api_key)` (source lines 11-14): sets the
process-wide `OPENAI_API_KEY` environment variable to the supplied key and
returns the `ChatOpenAI` client with temperature 0.5 and model
`gpt-4o-mini-0125`.  The environment is threaded explicitly. -/
def initialize_openai_model (api_key : String) (env : EnvMap) : ChatOpenAI × EnvMap :=
  ({ temperature := 0.5, model_name := "gpt-4o-mini-0125" },
   env_set env "OPENAI_API_KEY" api_key)

/-- `define_prompt_template()` (source lines 20-33): a chat prompt template
of one `("user", ...)` message whose content is the fixed template string,
transcribed verbatim from the source (the triple-quoted literal, including
its trailing space on the first line, its 20-space continuation indents and
its trailing 9-space line). -/
def define_prompt_template : List (String × String) :=
  [("user", "You are a social media script writer. \n                    Write a {format} script for {content_type} about {topic}.\n                    The category of the topic is {category}, the target audience includes {audience}, and\n                    the duration is {duration} seconds.\n                    Generate an appropriate title as well for the generated content.\n\n                    Output format:\n                    Title:\n                    Script:\n         ")]

/-- `prompt = define_prompt_template()` (source line 35). -/
def prompt : List (String × String) := define_prompt_template

/-- One outbound request to the external text-generation service: the
model configuration of the client making the call and the fully
substituted messages. -/
structure ExternalCall where
  model_name : String
  temperature : ℚ
  messages : List (String × String)
deriving DecidableEq, Repr

/-- The external service boundary: given an outbound request, either a
response text (`Except.ok`, already passed through `StrOutputParser`) or a
raised exception with its message (`Except.error`). -/
def Oracle : Type := ExternalCall → Except String String

/-- The chain `prompt | llm | StrOutputParser()` built by `create_chain`
(source lines 38-40): it holds the prompt template and the client
configuration. -/
structure Chain where
  template : List (String × String)
  llm : ChatOpenAI

/-- `create_chain(llm)` (source lines 38-40), closing over the module-level
`prompt`. -/
def create_chain (llm : ChatOpenAI) : Chain :=
  { template := prompt, llm := llm }

/-- The outbound request produced by `chain.invoke(vars)`: each message
content is formatted by substituting `vars`, and the request carries the
chain's model configuration. -/
def chain_request (c : Chain) (vars : String → String) : ExternalCall :=
  { model_name := c.llm.model_name, temperature := c.llm.temperature,
    messages := c.template.map (fun m => (m.1, str_format m.2 vars)) }

/-- `chain.invoke(vars)` submits the formatted request to the external
service and returns the response (or propagates the exception). -/
def Chain.invoke (c : Chain) (oracle : Oracle) (vars : String → String) : Except String String :=
  oracle (chain_request c vars)

/-- The variable binding dictionary built by `generate_script` (source
lines 48-55): the six field values, with `audience` serialized by
`', '.join(audience)` and `duration` rendered in decimal.  Lookup of a key
not in the dictionary yields `""` (never exercised by the template). -/
def invoke_vars (content_type topic category : String) (audience : List String)
    (format : String) (duration : Nat) : String → String :=
  fun v =>
    if v = "content_type" then content_type
    else if v = "topic" then topic
    else if v = "category" then category
    else if v = "audience" then py_join ", " audience
    else if v = "format" then format
    else if v = "duration" then toString duration
    else ""

/-- `generate_script(...)` (source lines 46-56): invoke the chain on the
six field values and return the response. -/
def generate_script (content_type topic category : String) (audience : List String)
    (format : String) (duration : Nat) (chain : Chain) (oracle : Oracle) :
    Except String String :=
  chain.invoke oracle (invoke_vars content_type topic category audience format duration)

/-- `st.selectbox(label, options)`: returns the currently selected option;
a default option is always selected, so the result is always an element of
`options`. -/
def selectbox (options : List String) (choice : Fin options.length) : String :=
  options.get choice

/-- `st.multiselect(label, options)`: returns the selected options in
selection order; defaults to the empty selection. -/
def multiselect (options : List String) (selection : List (Fin options.length)) :
    List String :=
  selection.map (fun i => options.get i)

/-- `st.slider(label, min_value, max_value, step)`: the control affords
`(maxv - minv) / step + 1` positions and position `p` yields
`minv + step * p`. -/
def slider (minv maxv step : Nat) (pos : Fin ((maxv - minv) / step + 1)) : Nat :=
  minv + step * pos.val

/-- The user's current control state for one render cycle of `main`:
the sidebar key field, the six form controls and whether the
`Generate Script` button was pressed on this cycle. -/
structure UserInput where
  api_key : String
  content_type_choice : Fin 2
  topic : String
  category_choice : Fin 5
  audience_selection : List (Fin 5)
  format_choice : Fin 2
  duration_pos : Fin 58
  generate_clicked : Bool

/-- One user-visible Streamlit output produced during a render cycle. -/
inductive Effect where
  | titleOf (s : String)
  | write (s : String)
  | sidebar_title (s : String)
  | spinner (s : String)
  | success (s : String)
  | subheader (s : String)
  | warning (s : String)
  | errorMsg (s : String)
deriving DecidableEq, Repr

/-- The observable outcome of one render cycle of `main`: the ordered
user-visible effects, the process environment afterwards, whether the
model/chain pipeline was constructed, and the outbound external calls made
(in order). -/
structure MainOutcome where
  effects : List Effect
  env : EnvMap
  modelConstructed : Bool
  calls : List ExternalCall

/-- The three header effects emitted unconditionally at the top of `main`
(source lines 64-68). -/
def header_effects : List Effect :=
  [Effect.titleOf "Social Media Script Generator",
   Effect.write "This app generates scripts for social media content using OpenAI\x27s gpt-4o-mini-0125 model.",
   Effect.sidebar_title "Configuration"]

/-- The `content_type` read in `main` (source line 77):
`st.selectbox("Select Content Type", ["YouTube", "Instagram"]).lower()`. -/
def content_type_of (ui : UserInput) : String :=
  py_lower (selectbox ["YouTube", "Instagram"] ui.content_type_choice)

/-- The `category` read in `main` (source line 83). -/
def category_of (ui : UserInput) : String :=
  selectbox ["Fashion", "Education", "Technology", "Health", "Travel"] ui.category_choice

/-- The `audience` read in `main` (source lines 86-89). -/
def audience_of (ui : UserInput) : List String :=
  multiselect ["Students", "Housewives", "Professionals", "Teenagers", "Seniors"]
    ui.audience_selection

/-- The `format` read in `main` (source line 92):
`st.selectbox("Select Format", ["Reel", "Video"]).lower()`. -/
def format_of (ui : UserInput) : String :=
  py_lower (selectbox ["Reel", "Video"] ui.format_choice)

/-- The `duration` read in `main` (source line 95):
`st.slider(..., min_value=15, max_value=300, step=5)`. -/
def duration_of (ui : UserInput) : Nat :=
  slider 15 300 5 ui.duration_pos

/-- The Python truthiness test guarding the call (source line 98):
`content_type and category and audience and format and duration and topic`.
A string is truthy iff non-empty, a list iff non-empty, an int iff
non-zero. -/
def fields_complete (ui : UserInput) : Bool :=
  content_type_of ui != "" && category_of ui != "" && !(audience_of ui).isEmpty &&
    format_of ui != "" && duration_of ui != 0 && ui.topic != ""

/-- The outbound request `main` submits when it calls `generate_script`
(definitionally the argument `generate_script` hands the oracle). -/
def main_request (ui : UserInput) : ExternalCall :=
  chain_request
    (create_chain { temperature := 0.5, model_name := "gpt-4o-mini-0125" })
    (invoke_vars (content_type_of ui) ui.topic (category_of ui) (audience_of ui)
      (format_of ui) (duration_of ui))

/-- The body of `main()` (source lines 62-110; named `app_main` here since `main` is reserved), one render cycle: emit the header,
read the sidebar key; without a key warn and stop (the pipeline is never
constructed); with a key set the environment variable, construct the
model and chain, read the six widgets, and on a button press either warn
about incomplete fields or perform the single external call, displaying
the script on success and the exception text on failure. -/
def app_main (ui : UserInput) (oracle : Oracle) (env0 : EnvMap) : MainOutcome :=
  if ui.api_key != "" then
    let init := initialize_openai_model ui.api_key env0
    let llm := init.1
    let env1 := init.2
    let chain := create_chain llm
    if ui.generate_clicked then
      if fields_complete ui then
        match generate_script (content_type_of ui) ui.topic (category_of ui)
            (audience_of ui) (format_of ui) (duration_of ui) chain oracle with
        | Except.ok script =>
          { effects := header_effects ++
              [Effect.spinner "Generating script...",
               Effect.success "Script generated successfully!",
               Effect.subheader "Generated Script",
               Effect.write script],
            env := env1, modelConstructed := true,
            calls := [main_request ui] }
        | Except.error e =>
          { effects := header_effects ++
              [Effect.spinner "Generating script...",
               Effect.errorMsg ("An error occurred: " ++ e)],
            env := env1, modelConstructed := true,
            calls := [main_request ui] }
      else
        { effects := header_effects ++ [Effect.warning "Please fill in all the fields."],
          env := env1, modelConstructed := true, calls := [] }
    else
      { effects := header_effects, env := env1, modelConstructed := true, calls := [] }
  else
    { effects := header_effects ++
        [Effect.warning "Please enter your OpenAI API key in the sidebar."],
      env := env0, modelConstructed := false, calls := [] }

set_option maxRecDepth 8192

/-! ### Properties of the `str.format` substitution -/

/-- Copying literal text: `format_aux` copies a brace-free prefix verbatim. -/
theorem format_aux_copy (env : String → String) (l rest : List Char)
    (h : ∀ c ∈ l, c ≠ '{') :
    format_aux env none (l ++ rest) = l ++ format_aux env none rest := by
  induction l with
  | nil => rfl
  | cons c cs ih =>
    simp only [List.cons_append, format_aux, List.append_eq]
    rw [if_neg (h c (List.mem_cons_self c cs))]
    rw [ih (fun d hd => h d (List.mem_cons_of_mem c hd))]

/-- Reading a variable name: between `{` and `}` the characters are
accumulated and the binding of the full name is spliced in. -/
theorem format_aux_read (env : String → String) (v rest : List Char)
    (h : ∀ c ∈ v, c ≠ '}') (acc : List Char) :
    format_aux env (some acc) (v ++ '}' :: rest)
      = (env (String.mk (acc.reverse ++ v))).data ++ format_aux env none rest := by
  induction v generalizing acc with
  | nil => simp [format_aux]
  | cons c cs ih =>
    simp only [List.cons_append, format_aux, List.append_eq]
    rw [if_neg (h c (List.mem_cons_self c cs))]
    rw [ih (fun d hd => h d (List.mem_cons_of_mem c hd)) (c :: acc)]
    simp

/-- A complete `{v}` substitution point: the binding of `v` is spliced in
verbatim. -/
theorem format_aux_subst (env : String → String) (v rest : List Char)
    (h : ∀ c ∈ v, c ≠ '}') :
    format_aux env none ('{' :: (v ++ '}' :: rest))
      = (env (String.mk v)).data ++ format_aux env none rest := by
  have h1 : format_aux env none ('{' :: (v ++ '}' :: rest))
      = format_aux env (some []) (v ++ '}' :: rest) := by
    simp [format_aux]
  rw [h1, format_aux_read env v rest h []]
  simp

/-- One literal chunk followed by one substitution point. -/
theorem format_aux_chunk (env : String → String) (l v rest : List Char)
    (hl : ∀ c ∈ l, c ≠ '{') (hv : ∀ c ∈ v, c ≠ '}') :
    format_aux env none (l ++ '{' :: (v ++ '}' :: rest))
      = l ++ ((env (String.mk v)).data ++ format_aux env none rest) := by
  rw [format_aux_copy env l _ hl, format_aux_subst env v rest hv]

/-- A trailing brace-free chunk is copied verbatim. -/
theorem format_aux_all_lit (env : String → String) (l : List Char)
    (h : ∀ c ∈ l, c ≠ '{') : format_aux env none l = l := by
  have h2 := format_aux_copy env l [] h
  have h0 : format_aux env none [] = [] := rfl
  rw [h0, List.append_nil] at h2
  exact h2

/-- The fixed template text splits into seven literal chunks and six
substitution points `format`, `content_type`, `topic`, `category`,
`audience`, `duration`, in that order. -/
theorem prompt_template_decomp :
    ("You are a social media script writer. \n                    Write a {format} script for {content_type} about {topic}.\n                    The category of the topic is {category}, the target audience includes {audience}, and\n                    the duration is {duration} seconds.\n                    Generate an appropriate title as well for the generated content.\n\n                    Output format:\n                    Title:\n                    Script:\n         ").data
      = ("You are a social media script writer. \n                    Write a ").data
        ++ '{' :: (("format").data
        ++ '}' :: ((" script for ").data
        ++ '{' :: (("content_type").data
        ++ '}' :: ((" about ").data
        ++ '{' :: (("topic").data
        ++ '}' :: ((".\n                    The category of the topic is ").data
        ++ '{' :: (("category").data
        ++ '}' :: ((", the target audience includes ").data
        ++ '{' :: (("audience").data
        ++ '}' :: ((", and\n                    the duration is ").data
        ++ '{' :: (("duration").data
        ++ '}' :: (" seconds.\n                    Generate an appropriate title as well for the generated content.\n\n                    Output format:\n                    Title:\n                    Script:\n         ").data))))))))))) := by
  decide

/-- Formatting the fixed template with any bindings yields the seven
literal chunks with the six bindings spliced in at their substitution
points. -/
theorem str_format_prompt_template (env : String → String) :
    str_format "You are a social media script writer. \n                    Write a {format} script for {content_type} about {topic}.\n                    The category of the topic is {category}, the target audience includes {audience}, and\n                    the duration is {duration} seconds.\n                    Generate an appropriate title as well for the generated content.\n\n                    Output format:\n                    Title:\n                    Script:\n         " env
      = "You are a social media script writer. \n                    Write a " ++ env "format"
        ++ " script for " ++ env "content_type"
        ++ " about " ++ env "topic"
        ++ ".\n                    The category of the topic is " ++ env "category"
        ++ ", the target audience includes " ++ env "audience"
        ++ ", and\n                    the duration is " ++ env "duration"
        ++ " seconds.\n                    Generate an appropriate title as well for the generated content.\n\n                    Output format:\n                    Title:\n                    Script:\n         " := by
  apply String.ext
  show format_aux env none _ = _
  rw [prompt_template_decomp]
  rw [format_aux_chunk env ("You are a social media script writer. \n                    Write a ").data ("format").data _ (by decide) (by decide)]
  rw [format_aux_chunk env (" script for ").data ("content_type").data _ (by decide) (by decide)]
  rw [format_aux_chunk env (" about ").data ("topic").data _ (by decide) (by decide)]
  rw [format_aux_chunk env (".\n                    The category of the topic is ").data ("category").data _ (by decide) (by decide)]
  rw [format_aux_chunk env (", the target audience includes ").data ("audience").data _ (by decide) (by decide)]
  rw [format_aux_chunk env (", and\n                    the duration is ").data ("duration").data _ (by decide) (by decide)]
  rw [format_aux_all_lit env (" seconds.\n                    Generate an appropriate title as well for the generated content.\n\n                    Output format:\n                    Title:\n                    Script:\n         ").data (by decide)]
  simp [String.data_append]

/-! ### Claim theorems -/

/-- C1: for every request, the prompt constructed by the Generation
Pipeline (the fixed template of `define_prompt_template` substituted via
`generate_script`) is exactly the fixed template text with each of the six
field values spliced in verbatim at its substitution point: it contains
`Write a {format} script for {content_type} about {topic}.`,
`The category of the topic is {category}`, `the target audience includes`
followed by the serialized audience, `the duration is {duration} seconds`,
the fixed instruction to also generate a title, and the two-line
output-format hint `Title:` / `Script:`. -/
theorem C1_prompt_contains_template_and_fields
    (content_type topic category : String) (audience : List String)
    (format : String) (duration : Nat) (llm : ChatOpenAI) (oracle : Oracle) :
    generate_script content_type topic category audience format duration
        (create_chain llm) oracle
      = oracle { model_name := llm.model_name, temperature := llm.temperature,
                 messages := [("user",
                   "You are a social media script writer. \n                    Write a " ++ format
                     ++ " script for " ++ content_type
                     ++ " about " ++ topic
                     ++ ".\n                    The category of the topic is " ++ category
                     ++ ", the target audience includes " ++ py_join ", " audience
                     ++ ", and\n                    the duration is " ++ toString duration
                     ++ " seconds.\n                    Generate an appropriate title as well for the generated content.\n\n                    Output format:\n                    Title:\n                    Script:\n         ")] } := by
  unfold generate_script Chain.invoke chain_request create_chain prompt define_prompt_template
  simp only [List.map_cons, List.map_nil]
  rw [str_format_prompt_template]
  simp [invoke_vars]

/-- Python `join` on a non-empty list: the head followed by
`sep ++ element` for each further element — no leading or trailing
separator. -/
theorem py_join_cons (sep x : String) (xs : List String) :
    py_join sep (x :: xs) = x ++ String.join (xs.map (fun s => sep ++ s)) := by
  induction xs generalizing x with
  | nil =>
    show x = x ++ String.join []
    rw [show String.join [] = "" from rfl, String.append_empty]
  | cons y ys ih =>
    show x ++ sep ++ py_join sep (y :: ys) = _
    rw [ih y, List.map_cons]
    apply String.ext
    simp [String.data_append, String.join_eq]

/-! ### Structure of one render cycle of `app_main` -/

/-- Without a credential, a render cycle emits the header and the
key warning, leaves the environment untouched, constructs no pipeline and
makes no external call. -/
theorem app_main_no_key (ui : UserInput) (oracle : Oracle) (env0 : EnvMap)
    (h : ui.api_key = "") :
    app_main ui oracle env0
      = { effects := header_effects ++
            [Effect.warning "Please enter your OpenAI API key in the sidebar."],
          env := env0, modelConstructed := false, calls := [] } := by
  simp [app_main, h]

/-- With a credential but no button press, a render cycle emits only the
header, overwrites the key variable, constructs the pipeline and makes no
call. -/
theorem app_main_not_clicked (ui : UserInput) (oracle : Oracle) (env0 : EnvMap)
    (hk : ui.api_key ≠ "") (hc : ui.generate_clicked = false) :
    app_main ui oracle env0
      = { effects := header_effects,
          env := env_set env0 "OPENAI_API_KEY" ui.api_key,
          modelConstructed := true, calls := [] } := by
  simp [app_main, hk, hc, initialize_openai_model]

/-- With a credential, a button press and an incomplete form, a render
cycle warns about the fields and makes no call. -/
theorem app_main_incomplete (ui : UserInput) (oracle : Oracle) (env0 : EnvMap)
    (hk : ui.api_key ≠ "") (hc : ui.generate_clicked = true)
    (hf : fields_complete ui = false) :
    app_main ui oracle env0
      = { effects := header_effects ++ [Effect.warning "Please fill in all the fields."],
          env := env_set env0 "OPENAI_API_KEY" ui.api_key,
          modelConstructed := true, calls := [] } := by
  simp [app_main, hk, hc, hf, initialize_openai_model]

/-- With a credential, a button press, a complete form and a successful
external response, a render cycle shows the script and made exactly the
one request. -/
theorem app_main_call_ok (ui : UserInput) (oracle : Oracle) (env0 : EnvMap)
    (s : String) (hk : ui.api_key ≠ "") (hc : ui.generate_clicked = true)
    (hf : fields_complete ui = true)
    (hr : oracle (main_request ui) = Except.ok s) :
    app_main ui oracle env0
      = { effects := header_effects ++
            [Effect.spinner "Generating script...",
             Effect.success "Script generated successfully!",
             Effect.subheader "Generated Script",
             Effect.write s],
          env := env_set env0 "OPENAI_API_KEY" ui.api_key,
          modelConstructed := true, calls := [main_request ui] } := by
  have hg : generate_script (content_type_of ui) ui.topic (category_of ui)
      (audience_of ui) (format_of ui) (duration_of ui)
      (create_chain { temperature := 0.5, model_name := "gpt-4o-mini-0125" }) oracle
      = Except.ok s := hr
  simp [app_main, hk, hc, hf, hg, initialize_openai_model]

/-- With a credential, a button press, a complete form and a raised
exception from the external call, a render cycle shows the single error
message (containing the exception text) and made exactly the one
request. -/
theorem app_main_call_error (ui : UserInput) (oracle : Oracle) (env0 : EnvMap)
    (e : String) (hk : ui.api_key ≠ "") (hc : ui.generate_clicked = true)
    (hf : fields_complete ui = true)
    (hr : oracle (main_request ui) = Except.error e) :
    app_main ui oracle env0
      = { effects := header_effects ++
            [Effect.spinner "Generating script...",
             Effect.errorMsg ("An error occurred: " ++ e)],
          env := env_set env0 "OPENAI_API_KEY" ui.api_key,
          modelConstructed := true, calls := [main_request ui] } := by
  have hg : generate_script (content_type_of ui) ui.topic (category_of ui)
      (audience_of ui) (format_of ui) (duration_of ui)
      (create_chain { temperature := 0.5, model_name := "gpt-4o-mini-0125" }) oracle
      = Except.error e := hr
  simp [app_main, hk, hc, hf, hg, initialize_openai_model]

/-- The content-type selector always yields a non-empty string
(`"youtube"` or `"instagram"`). -/
theorem content_type_of_ne (ui : UserInput) : content_type_of ui ≠ "" := by
  have h : ∀ i : Fin 2, py_lower (selectbox ["YouTube", "Instagram"] i) ≠ "" := by decide
  exact h ui.content_type_choice

/-- The category selector always yields a non-empty string. -/
theorem category_of_ne (ui : UserInput) : category_of ui ≠ "" := by
  have h : ∀ i : Fin 5,
      selectbox ["Fashion", "Education", "Technology", "Health", "Travel"] i ≠ "" := by
    decide
  exact h ui.category_choice

/-- The format selector always yields a non-empty string
(`"reel"` or `"video"`). -/
theorem format_of_ne (ui : UserInput) : format_of ui ≠ "" := by
  have h : ∀ i : Fin 2, py_lower (selectbox ["Reel", "Video"] i) ≠ "" := by decide
  exact h ui.format_choice

/-- The duration slider always yields a non-zero (indeed ≥ 15) value. -/
theorem duration_of_ne_zero (ui : UserInput) : duration_of ui ≠ 0 := by
  have h : duration_of ui = 15 + 5 * ui.duration_pos.val := rfl
  omega

/-- The Python truthiness check of source line 98 can only fail on the
topic or the audience: it is `true` iff the topic text and the audience
selection are both non-empty. -/
theorem fields_complete_iff (ui : UserInput) :
    fields_complete ui = true ↔ (ui.topic ≠ "" ∧ ui.audience_selection ≠ []) := by
  have hct := content_type_of_ne ui
  have hcat := category_of_ne ui
  have hf := format_of_ne ui
  have hd := duration_of_ne_zero ui
  have haud : (audience_of ui).isEmpty = ui.audience_selection.isEmpty := by
    rw [audience_of, multiselect]
    cases ui.audience_selection <;> simp
  unfold fields_complete
  rw [haud]
  cases hsel : ui.audience_selection with
  | nil => simp [hct, hcat, hf, hd]
  | cons a l => simp [hct, hcat, hf, hd]

/-- C5: audience serialization — the `audience` binding `generate_script`
passes to the template joins the selected labels with `", "` in selection
order (head label, then `", " ++ label` for each further label, so no
leading or trailing separator); a singleton selection serializes to
exactly its label; and `generate_script` invokes the chain on exactly
these bindings. -/
theorem C5_audience_serialization (content_type topic category : String)
    (x : String) (xs : List String) (format : String) (duration : Nat) :
    invoke_vars content_type topic category (x :: xs) format duration "audience"
        = x ++ String.join (xs.map (fun s => ", " ++ s))
    ∧ invoke_vars content_type topic category [x] format duration "audience" = x
    ∧ ∀ (chain : Chain) (oracle : Oracle),
        generate_script content_type topic category (x :: xs) format duration chain oracle
          = chain.invoke oracle
              (invoke_vars content_type topic category (x :: xs) format duration) := by
  refine ⟨?_, ?_, fun chain oracle => rfl⟩
  · show py_join ", " (x :: xs) = _
    exact py_join_cons ", " x xs
  · show py_join ", " [x] = x
    rfl

/-- C10: prompt construction is deterministic — two invocations of
`generate_script` that agree on the six field values construct identical
request messages whatever the client values and oracles involved, and each
invocation returns exactly its oracle's response to that request, so only
the external response can differ between the two runs. -/
theorem C10_deterministic_prompt (content_type topic category : String)
    (audience : List String) (format : String) (duration : Nat)
    (llm1 llm2 : ChatOpenAI) (oracle1 : Oracle) :
    (chain_request (create_chain llm1)
        (invoke_vars content_type topic category audience format duration)).messages
      = (chain_request (create_chain llm2)
          (invoke_vars content_type topic category audience format duration)).messages
    ∧ generate_script content_type topic category audience format duration
          (create_chain llm1) oracle1
        = oracle1 (chain_request (create_chain llm1)
            (invoke_vars content_type topic category audience format duration)) := by
  exact ⟨rfl, rfl⟩

/-- C2: on any exception from the single external call, the render cycle
shows exactly one error message containing the underlying error text, no
script result (no success banner, no result subheader, no script write),
performs exactly one request (no retry), and the interface remains usable:
a subsequent attempt from the resulting state behaves normally (shown here
for a succeeding retry of the same input). -/
theorem C2_external_failure_reported (ui : UserInput) (oracle : Oracle)
    (env0 : EnvMap) (e : String) (hk : ui.api_key ≠ "")
    (hc : ui.generate_clicked = true) (hf : fields_complete ui = true)
    (hr : oracle (main_request ui) = Except.error e) :
    (app_main ui oracle env0).effects
        = header_effects ++
            [Effect.spinner "Generating script...",
             Effect.errorMsg ("An error occurred: " ++ e)]
    ∧ (∀ s, Effect.success s ∉ (app_main ui oracle env0).effects)
    ∧ (∀ s, Effect.subheader s ∉ (app_main ui oracle env0).effects)
    ∧ (app_main ui oracle env0).calls = [main_request ui]
    ∧ (∀ (oracle2 : Oracle) (s : String),
        oracle2 (main_request ui) = Except.ok s →
          (app_main ui oracle2 (app_main ui oracle env0).env).effects
            = header_effects ++
                [Effect.spinner "Generating script...",
                 Effect.success "Script generated successfully!",
                 Effect.subheader "Generated Script",
                 Effect.write s]) := by
  rw [app_main_call_error ui oracle env0 e hk hc hf hr]
  refine ⟨rfl, ?_, ?_, rfl, ?_⟩
  · intro s
    simp [header_effects]
  · intro s
    simp [header_effects]
  · intro oracle2 s hs
    rw [app_main_call_ok ui oracle2 _ s hk hc hf hs]

/-- C3: a submit trigger with any empty field is a no-op apart from a
user-visible warning: no external call is made, the outcome does not
depend on the external service at all, and when a credential is present
the only effect beyond the header is the completeness warning (no partial
submission is ever accepted). -/
theorem C3_incomplete_submission_noop (ui : UserInput) (oracle : Oracle)
    (env0 : EnvMap) (hc : ui.generate_clicked = true)
    (hempty : content_type_of ui = "" ∨ ui.topic = "" ∨ category_of ui = ""
      ∨ audience_of ui = [] ∨ format_of ui = "" ∨ duration_of ui = 0) :
    (app_main ui oracle env0).calls = []
    ∧ (∀ oracle2 : Oracle, app_main ui oracle2 env0 = app_main ui oracle env0)
    ∧ (ui.api_key ≠ "" →
        (app_main ui oracle env0).effects
          = header_effects ++ [Effect.warning "Please fill in all the fields."]) := by
  have hf : fields_complete ui = false := by
    rcases hempty with h | h | h | h | h | h
    · exact absurd h (content_type_of_ne ui)
    · rw [Bool.eq_false_iff]
      intro htrue
      exact ((fields_complete_iff ui).1 htrue).1 h
    · exact absurd h (category_of_ne ui)
    · rw [Bool.eq_false_iff]
      intro htrue
      have hsel := ((fields_complete_iff ui).1 htrue).2
      rw [audience_of, multiselect] at h
      exact hsel (List.map_eq_nil_iff.1 h)
    · exact absurd h (format_of_ne ui)
    · exact absurd h (duration_of_ne_zero ui)
  by_cases hk : ui.api_key = ""
  · refine ⟨?_, ?_, ?_⟩
    · rw [app_main_no_key ui oracle env0 hk]
    · intro oracle2
      rw [app_main_no_key ui oracle env0 hk, app_main_no_key ui oracle2 env0 hk]
    · intro hk2
      exact absurd hk hk2
  · refine ⟨?_, ?_, ?_⟩
    · rw [app_main_incomplete ui oracle env0 hk hc hf]
    · intro oracle2
      rw [app_main_incomplete ui oracle env0 hk hc hf,
        app_main_incomplete ui oracle2 env0 hk hc hf]
    · intro _
      rw [app_main_incomplete ui oracle env0 hk hc hf]

/-- C4: with no credential supplied, every render cycle — whether or not
the submit trigger is pressed — shows the key warning, never constructs
the model/chain pipeline, makes no external call, and its outcome is
entirely independent of the external service. -/
theorem C4_no_credential_no_pipeline (ui : UserInput) (oracle : Oracle)
    (env0 : EnvMap) (h : ui.api_key = "") :
    (app_main ui oracle env0).effects
        = header_effects ++
            [Effect.warning "Please enter your OpenAI API key in the sidebar."]
    ∧ (app_main ui oracle env0).modelConstructed = false
    ∧ (app_main ui oracle env0).calls = []
    ∧ (∀ oracle2 : Oracle, app_main ui oracle2 env0 = app_main ui oracle env0) := by
  rw [app_main_no_key ui oracle env0 h]
  refine ⟨rfl, rfl, rfl, ?_⟩
  intro oracle2
  rw [app_main_no_key ui oracle2 env0 h]

/-- C6: every value the bounded duration control can produce is an integer
`d` with `15 ≤ d ≤ 300` and `d - 15` divisible by 5; the boundary values
15 and 300 are producible and accepted for submission (the call happens);
and every request that reaches the pipeline carries the slider's value, so
no value outside `[15, 300]` can ever reach it. -/
theorem C6_duration_bounds :
    (∀ p : Fin 58, 15 ≤ slider 15 300 5 p ∧ slider 15 300 5 p ≤ 300
      ∧ (slider 15 300 5 p - 15) % 5 = 0)
    ∧ (∃ p : Fin 58, slider 15 300 5 p = 15)
    ∧ (∃ p : Fin 58, slider 15 300 5 p = 300)
    ∧ (∀ ui : UserInput, duration_of ui = slider 15 300 5 ui.duration_pos
        ∧ 15 ≤ duration_of ui ∧ duration_of ui ≤ 300)
    ∧ (∀ (ui : UserInput) (oracle : Oracle) (env0 : EnvMap) (c : ExternalCall),
        c ∈ (app_main ui oracle env0).calls → c = main_request ui)
    ∧ (∀ (ui : UserInput) (oracle : Oracle) (env0 : EnvMap),
        ui.api_key ≠ "" → ui.generate_clicked = true → ui.topic ≠ "" →
        ui.audience_selection ≠ [] →
          (app_main ui oracle env0).calls = [main_request ui]) := by
  have hrange : ∀ p : Fin 58, 15 ≤ slider 15 300 5 p ∧ slider 15 300 5 p ≤ 300
      ∧ (slider 15 300 5 p - 15) % 5 = 0 := by
    intro p
    have hp : p.val < 58 := p.isLt
    have hs : slider 15 300 5 p = 15 + 5 * p.val := rfl
    omega
  have hcalls : ∀ (ui : UserInput) (oracle : Oracle) (env0 : EnvMap),
      ui.api_key ≠ "" → ui.generate_clicked = true → fields_complete ui = true →
        (app_main ui oracle env0).calls = [main_request ui] := by
    intro ui oracle env0 hk hc hf
    cases hr : oracle (main_request ui) with
    | ok s => rw [app_main_call_ok ui oracle env0 s hk hc hf hr]
    | error e => rw [app_main_call_error ui oracle env0 e hk hc hf hr]
  refine ⟨hrange, ⟨⟨0, by norm_num⟩, rfl⟩, ⟨⟨57, by norm_num⟩, rfl⟩,
    fun ui => ⟨rfl, (hrange ui.duration_pos).1, (hrange ui.duration_pos).2.1⟩,
    ?_, ?_⟩
  · intro ui oracle env0 c hmem
    by_cases hk : ui.api_key = ""
    · rw [app_main_no_key ui oracle env0 hk] at hmem
      simp at hmem
    · by_cases hc : ui.generate_clicked = true
      · by_cases hf : fields_complete ui = true
        · rw [hcalls ui oracle env0 hk hc hf] at hmem
          simpa using hmem
        · rw [app_main_incomplete ui oracle env0 hk hc (Bool.eq_false_iff.2 hf)] at hmem
          simp at hmem
      · rw [app_main_not_clicked ui oracle env0 hk (Bool.eq_false_iff.2 hc)] at hmem
        simp at hmem
  · intro ui oracle env0 hk hc ht ha
    exact hcalls ui oracle env0 hk hc ((fields_complete_iff ui).2 ⟨ht, ha⟩)

/-- C7: every valid complete trigger performs exactly one synchronous
request, always with the fixed model identifier `gpt-4o-mini-0125` and the
fixed sampling temperature 0.5; and no context is carried across
invocations: any other valid trigger agreeing on the six field values
issues exactly the same request list, whatever its oracle or environment. -/
theorem C7_single_fixed_call (ui : UserInput) (oracle : Oracle) (env0 : EnvMap)
    (hk : ui.api_key ≠ "") (hc : ui.generate_clicked = true)
    (hf : fields_complete ui = true) :
    (app_main ui oracle env0).calls.length = 1
    ∧ (∀ c ∈ (app_main ui oracle env0).calls,
        c.model_name = "gpt-4o-mini-0125" ∧ c.temperature = 0.5)
    ∧ (∀ (ui2 : UserInput) (oracle2 : Oracle) (env2 : EnvMap),
        ui2.api_key ≠ "" → ui2.generate_clicked = true → fields_complete ui2 = true →
        content_type_of ui2 = content_type_of ui → ui2.topic = ui.topic →
        category_of ui2 = category_of ui → audience_of ui2 = audience_of ui →
        format_of ui2 = format_of ui → duration_of ui2 = duration_of ui →
          (app_main ui2 oracle2 env2).calls = (app_main ui oracle env0).calls) := by
  have hcalls : ∀ (ui3 : UserInput) (oracle3 : Oracle) (env3 : EnvMap),
      ui3.api_key ≠ "" → ui3.generate_clicked = true → fields_complete ui3 = true →
        (app_main ui3 oracle3 env3).calls = [main_request ui3] := by
    intro ui3 oracle3 env3 hk3 hc3 hf3
    cases hr : oracle3 (main_request ui3) with
    | ok s => rw [app_main_call_ok ui3 oracle3 env3 s hk3 hc3 hf3 hr]
    | error e => rw [app_main_call_error ui3 oracle3 env3 e hk3 hc3 hf3 hr]
  rw [hcalls ui oracle env0 hk hc hf]
  refine ⟨rfl, ?_, ?_⟩
  · intro c hmem
    rw [List.mem_singleton] at hmem
    subst hmem
    exact ⟨rfl, rfl⟩
  · intro ui2 oracle2 env2 hk2 hc2 hf2 h1 h2 h3 h4 h5 h6
    rw [hcalls ui2 oracle2 env2 hk2 hc2 hf2]
    unfold main_request
    rw [h1, h2, h3, h4, h5, h6]

/-- C8: credential propagation overwrites rather than merges the global
state: `initialize_openai_model` sets the `OPENAI_API_KEY` environment
variable to exactly the supplied key, replacing any previous value, and
leaves every other environment variable unchanged; a render cycle with a
credential does exactly this overwrite and a render cycle without one
leaves the environment untouched — the environment variable is the only
global state the model threads, and no other key is ever written. -/
theorem C8_credential_overwrites_env (api_key : String) (env0 : EnvMap) :
    ((initialize_openai_model api_key env0).2 "OPENAI_API_KEY" = some api_key
      ∧ ∀ k : String, k ≠ "OPENAI_API_KEY" →
          (initialize_openai_model api_key env0).2 k = env0 k)
    ∧ (∀ (ui : UserInput) (oracle : Oracle),
        (ui.api_key ≠ "" →
          (app_main ui oracle env0).env = env_set env0 "OPENAI_API_KEY" ui.api_key)
        ∧ (ui.api_key = "" → (app_main ui oracle env0).env = env0)) := by
  have henv : ∀ (ui : UserInput) (oracle : Oracle), ui.api_key ≠ "" →
      (app_main ui oracle env0).env = env_set env0 "OPENAI_API_KEY" ui.api_key := by
    intro ui oracle hk
    by_cases hc : ui.generate_clicked = true
    · by_cases hf : fields_complete ui = true
      · cases hr : oracle (main_request ui) with
        | ok s => rw [app_main_call_ok ui oracle env0 s hk hc hf hr]
        | error e => rw [app_main_call_error ui oracle env0 e hk hc hf hr]
      · rw [app_main_incomplete ui oracle env0 hk hc (Bool.eq_false_iff.2 hf)]
    · rw [app_main_not_clicked ui oracle env0 hk (Bool.eq_false_iff.2 hc)]
  refine ⟨⟨?_, ?_⟩, ?_⟩
  · show env_set env0 "OPENAI_API_KEY" api_key "OPENAI_API_KEY" = some api_key
    rw [env_set, if_pos rfl]
  · intro k hkne
    show env_set env0 "OPENAI_API_KEY" api_key k = env0 k
    rw [env_set, if_neg hkne]
  · intro ui oracle
    refine ⟨henv ui oracle, ?_⟩
    intro hk
    rw [app_main_no_key ui oracle env0 hk]

/-- C9: with a credential present and the submit trigger pressed, the
`Please fill in all the fields.` warning is shown iff the topic text is
empty or the audience selection is empty — the content-type, category and
format selectors always yield a non-empty string and the duration slider
always yields a value ≥ 15, so the completeness check can only ever fail
on topic or audience. -/
theorem C9_warning_iff_topic_or_audience (ui : UserInput) (oracle : Oracle)
    (env0 : EnvMap) (hk : ui.api_key ≠ "") (hc : ui.generate_clicked = true) :
    Effect.warning "Please fill in all the fields." ∈ (app_main ui oracle env0).effects
      ↔ (ui.topic = "" ∨ ui.audience_selection = []) := by
  by_cases hf : fields_complete ui = true
  · have hfields := (fields_complete_iff ui).1 hf
    have hnot : ¬ (ui.topic = "" ∨ ui.audience_selection = []) := by
      rintro (h | h)
      · exact hfields.1 h
      · exact hfields.2 h
    cases hr : oracle (main_request ui) with
    | ok s =>
      rw [app_main_call_ok ui oracle env0 s hk hc hf hr]
      simp [header_effects, hnot]
    | error e =>
      rw [app_main_call_error ui oracle env0 e hk hc hf hr]
      simp [header_effects, hnot]
  · have hor : ui.topic = "" ∨ ui.audience_selection = [] := by
      by_contra hno
      push_neg at hno
      exact hf ((fields_complete_iff ui).2 hno)
    rw [app_main_incomplete ui oracle env0 hk hc (Bool.eq_false_iff.2 hf)]
    simp [header_effects, hor]

/-- Witness for C2 at a concrete input: an oracle that always raises
`quota exceeded` makes the render cycle show exactly the one error
message containing that text. -/
theorem C2_witness :
    (app_main (⟨"sk-test", 0, "coffee brewing", 1, [0, 2], 0, 3, true⟩ : UserInput)
        (fun _ => Except.error "quota exceeded") (fun _ => none)).effects
      = header_effects ++
          [Effect.spinner "Generating script...",
           Effect.errorMsg ("An error occurred: " ++ "quota exceeded")] :=
  (C2_external_failure_reported
    (⟨"sk-test", 0, "coffee brewing", 1, [0, 2], 0, 3, true⟩ : UserInput)
    (fun _ => Except.error "quota exceeded") (fun _ => none) "quota exceeded"
    (by decide) rfl (by decide) rfl).1

/-- Witness for C3 at a concrete input: a press with an empty topic makes
no external call. -/
theorem C3_witness :
    (app_main (⟨"sk-test", 0, "", 1, [0], 0, 3, true⟩ : UserInput)
        (fun _ => Except.ok "Title:\nScript:") (fun _ => none)).calls = [] :=
  (C3_incomplete_submission_noop
    (⟨"sk-test", 0, "", 1, [0], 0, 3, true⟩ : UserInput)
    (fun _ => Except.ok "Title:\nScript:") (fun _ => none) rfl
    (Or.inr (Or.inl rfl))).1

/-- Witness for C4 at a concrete input: with an empty key and the button
pressed, the pipeline is not constructed and no call is made. -/
theorem C4_witness :
    (app_main (⟨"", 0, "coffee brewing", 1, [0], 0, 3, true⟩ : UserInput)
        (fun _ => Except.ok "Title:\nScript:") (fun _ => none)).modelConstructed = false
    ∧ (app_main (⟨"", 0, "coffee brewing", 1, [0], 0, 3, true⟩ : UserInput)
        (fun _ => Except.ok "Title:\nScript:") (fun _ => none)).calls = [] :=
  ⟨(C4_no_credential_no_pipeline
      (⟨"", 0, "coffee brewing", 1, [0], 0, 3, true⟩ : UserInput)
      (fun _ => Except.ok "Title:\nScript:") (fun _ => none) rfl).2.1,
   (C4_no_credential_no_pipeline
      (⟨"", 0, "coffee brewing", 1, [0], 0, 3, true⟩ : UserInput)
      (fun _ => Except.ok "Title:\nScript:") (fun _ => none) rfl).2.2.1⟩

/-- Witness for C6 at concrete inputs: boundary durations are producible,
and a complete submission at slider position 0 (duration 15) performs the
call. -/
theorem C6_witness :
    slider 15 300 5 (0 : Fin 58) = 15 ∧ slider 15 300 5 (57 : Fin 58) = 300
    ∧ (app_main (⟨"sk-test", 0, "coffee brewing", 1, [0, 2], 0, 0, true⟩ : UserInput)
        (fun _ => Except.ok "Title:\nScript:") (fun _ => none)).calls
      = [main_request (⟨"sk-test", 0, "coffee brewing", 1, [0, 2], 0, 0, true⟩ : UserInput)] :=
  ⟨rfl, rfl,
   C6_duration_bounds.2.2.2.2.2
     (⟨"sk-test", 0, "coffee brewing", 1, [0, 2], 0, 0, true⟩ : UserInput)
     (fun _ => Except.ok "Title:\nScript:") (fun _ => none)
     (by decide) rfl (by decide) (by decide)⟩

/-- Witness for C7 at a concrete input: a valid complete trigger makes
exactly one call. -/
theorem C7_witness :
    (app_main (⟨"sk-test", 1, "street food", 4, [3], 1, 10, true⟩ : UserInput)
        (fun _ => Except.ok "Title:\nScript:") (fun _ => none)).calls.length = 1 :=
  (C7_single_fixed_call
    (⟨"sk-test", 1, "street food", 4, [3], 1, 10, true⟩ : UserInput)
    (fun _ => Except.ok "Title:\nScript:") (fun _ => none)
    (by decide) rfl (by decide)).1

/-- Witness for C8 at a concrete input: the key variable is overwritten
and an unrelated variable (`PATH`) is untouched. -/
theorem C8_witness :
    (initialize_openai_model "sk-test" (fun _ => none)).2 "OPENAI_API_KEY"
        = some "sk-test"
    ∧ (initialize_openai_model "sk-test" (fun _ => none)).2 "PATH" = none :=
  ⟨(C8_credential_overwrites_env "sk-test" (fun _ => none)).1.1,
   (C8_credential_overwrites_env "sk-test" (fun _ => none)).1.2 "PATH" (by decide)⟩

/-- Witness for C9 at a concrete input: an empty audience selection with a
non-empty topic triggers the completeness warning. -/
theorem C9_witness :
    Effect.warning "Please fill in all the fields."
      ∈ (app_main (⟨"sk-test", 0, "coffee brewing", 1, [], 0, 3, true⟩ : UserInput)
          (fun _ => Except.ok "Title:\nScript:") (fun _ => none)).effects :=
  (C9_warning_iff_topic_or_audience
    (⟨"sk-test", 0, "coffee brewing", 1, [], 0, 3, true⟩ : UserInput)
    (fun _ => Except.ok "Title:\nScript:") (fun _ => none)
    (by decide) rfl).2 (Or.inr rfl)
